import Mathlib

/-!
Verification development for the ClaimMate workspace engine
(`src/app.py` and the legacy variant `src/unnamed/part_000`).

The Python code is shallowly embedded: strings are Lean `String`s (character
sequences), bytes are `List Nat`, Python dictionaries loaded from JSON are
association lists over a JSON value type `JVal`, and the session aggregate
`app_data` is the structure `AppState`.  External collaborators (the OpenAI
gateway, `json.loads`, the PDF/DOCX readers) are passed in as explicit
parameters, so every repository-owned function is a total computable Lean
definition.
-/

/-! ### Python string primitives

Helpers mirroring the exact Python `str` methods the source uses:
`strip`, `split(sep)`, `splitlines`, `in` (substring), `startswith`,
slicing `s[:n]`, and `sep.join`.  All are defined over the character list
of the string so that concrete instances reduce in the kernel. -/

/-- The ASCII whitespace characters recognised by Python `str.strip()`
(space, tab, newline, carriage return, vertical tab, form feed). -/
def isPySpace (c : Char) : Bool :=
  c = ' ' || c = '\t' || c = '\n' || c = '\r' || c = '\x0b' || c = '\x0c'

/-- Python `str.strip()` on character lists: drop whitespace from both ends. -/
def pyStripL (l : List Char) : List Char :=
  ((l.dropWhile isPySpace).reverse.dropWhile isPySpace).reverse

/-- Python `str.strip()`. -/
def pyStrip (s : String) : String := String.mk (pyStripL s.toList)

/-- Auxiliary splitter for `pySplitChar`: Python `str.split(sep)` keeps
empty fields. -/
def pySplitCharAux (sep : Char) : List Char → List Char → List (List Char)
  | [], acc => [acc.reverse]
  | c :: cs, acc =>
    if c = sep then acc.reverse :: pySplitCharAux sep cs []
    else pySplitCharAux sep cs (c :: acc)

/-- Python `str.split(sep)` for a one-character separator (the source only
splits on `"\n"` and `"|"`). -/
def pySplitChar (sep : Char) (s : String) : List String :=
  (pySplitCharAux sep s.toList []).map String.mk

/-- Auxiliary splitter for `pySplitLines`; a final line without a trailing
break is emitted, a trailing break does not create an empty final line. -/
def pySplitLinesAux : List Char → List Char → List (List Char)
  | [], acc => if acc.isEmpty then [] else [acc.reverse]
  | '\r' :: '\n' :: cs, acc => acc.reverse :: pySplitLinesAux cs []
  | c :: cs, acc =>
    if c = '\n' || c = '\r' || c = '\x0b' || c = '\x0c' then
      acc.reverse :: pySplitLinesAux cs []
    else pySplitLinesAux cs (c :: acc)

/-- Python `str.splitlines()` (restricted to the ASCII line boundaries
`\n`, `\r`, `\r\n`, `\x0b`, `\x0c`; the exotic Unicode boundaries do not
occur in the data handled by the app). -/
def pySplitLines (s : String) : List String :=
  (pySplitLinesAux s.toList []).map String.mk

/-- Substring test on character lists (Python `sub in s`). -/
def listContainsSub (l pat : List Char) : Bool :=
  match l with
  | [] => pat.isEmpty
  | _ :: t => pat.isPrefixOf l || listContainsSub t pat

/-- Python `pat in s` substring containment. -/
def containsSub (s pat : String) : Bool := listContainsSub s.toList pat.toList

/-- Python `s.startswith(pre)`. -/
def pyStartsWith (s pre : String) : Bool := pre.toList.isPrefixOf s.toList

/-- Python slicing `s[:n]`. -/
def pyTake (n : Nat) (s : String) : String := String.mk (s.toList.take n)

/-- Python `sep.join(parts)`. -/
def pyJoin (sep : String) : List String → String
  | [] => ""
  | [s] => s
  | s :: ss => s ++ sep ++ pyJoin sep ss

/-! ### JSON values

The persisted aggregate is a schemaless JSON object (`json.load` /
`json.dump` in `src/app.py`), modelled by the inductive `JVal`; a JSON
object is an association list of key/value pairs in insertion order,
mirroring a Python `dict`. -/

/-- A JSON value as produced by Python `json.loads` (numbers restricted to
integers, which is all the app ever stores). -/
inductive JVal where
  | null : JVal
  | bool : Bool → JVal
  | num : Int → JVal
  | str : String → JVal
  | arr : List JVal → JVal
  | obj : List (String × JVal) → JVal

/-- Python `k in d` for a dict modelled as an association list. -/
def hasKey (d : List (String × JVal)) (k : String) : Bool :=
  d.any (fun p => p.1 == k)

/-- Python `d[k]` / `d.get(k)`: first binding of `k` (a loaded dict has
unique keys, so first-match lookup is dict lookup). -/
def jLookup (d : List (String × JVal)) (k : String) : Option JVal :=
  match d with
  | [] => none
  | p :: t => if p.1 == k then some p.2 else jLookup t k

/-! ### Workspace store: default back-fill (`load_app_data`, `src/app.py:16-39`) -/

/-- The `defaults` dict of `load_app_data` (`src/app.py:26-35`). -/
def defaults : List (String × JVal) :=
  [("veteran_profile", JVal.obj []),
   ("issues", JVal.arr []),
   ("symptom_mappings", JVal.arr []),
   ("symptom_note", JVal.str ""),
   ("claims", JVal.arr []),
   ("notes", JVal.str ""),
   ("documents", JVal.arr []),
   ("evidence_summary", JVal.str "")]

/-- The back-fill loop `for k, v in defaults.items(): if k not in data:
data[k] = v` for an arbitrary defaults dict; inserting a fresh key into a
Python dict appends it in iteration order. -/
def fillAbsent (defs d : List (String × JVal)) : List (String × JVal) :=
  defs.foldl (fun acc kv => if hasKey acc kv.1 then acc else acc ++ [kv]) d

/-- The default back-fill performed by `load_app_data`
(`src/app.py:36-38`): fill every absent top-level key of the loaded data
with its default. -/
def merge_defaults (d : List (String × JVal)) : List (String × JVal) :=
  fillAbsent defaults d

/-! ### The session aggregate (`app_data`)

After `load_app_data` the session works with the aggregate whose shape the
app itself maintains (`src/app.py`): a profile dict of strings, issue and
claim records created by the app, uploaded document records, and symptom
mappings taken verbatim from a parsed JSON array (hence `List JVal`). -/

/-- `veteran_profile` (`src/app.py:363-369`): six string fields; an absent
key behaves like the empty string in every use site (all reads are
`prof.get(k)` guarded by truthiness). -/
structure Profile where
  full_name : String
  branch : String
  service_dates : String
  deployment_locations : String
  mos_duties : String
  other_notes : String

/-- An `issues` entry, created as `{"label": line, "details": ""}`
(`src/app.py:385`). -/
structure Issue where
  label : String
  details : String
deriving DecidableEq

/-- A `claims` entry, created at `src/app.py:593-599`. -/
structure Claim where
  id : String
  title : String
  body : String
  created_at : String

/-- A `documents` entry, created at `src/app.py:414-422`. -/
structure Doc where
  id : String
  name : String
  mime : String
  size : Nat
  uploaded_at : String
  text : String
  notes : String

/-- The in-session aggregate `app_data` with the eight top-level keys that
`load_app_data` guarantees. `symptom_mappings` holds raw parsed JSON
values because the mapper stores the `json.loads` result verbatim
(`src/app.py:505`). -/
structure AppState where
  veteran_profile : Profile
  issues : List Issue
  symptom_mappings : List JVal
  symptom_note : String
  claims : List Claim
  notes : String
  documents : List Doc
  evidence_summary : String

/-! ### UTF-8 decoding (`bytes.decode("utf-8", errors="ignore")`)

`extract_text_from_bytes` decodes with `errors="ignore"`: every maximal
invalid subpart is dropped.  `utf8DecodeReplace` is the decoder the SPEC
describes ("undecodable bytes replaced"), written from the spec's words
for comparison: it emits U+FFFD for every maximal invalid subpart, the
`errors="replace"` behaviour. -/

/-- A UTF-8 continuation byte (`0x80..0xBF`). -/
def isCont (c : Nat) : Bool := 0x80 ≤ c && c ≤ 0xBF

/-- Allowed first continuation byte after a three-byte lead `b` (`0xE0`
requires `0xA0..0xBF`, `0xED` requires `0x80..0x9F`, otherwise a plain
continuation byte). -/
def cont1ok3 (b c : Nat) : Bool :=
  if b = 0xE0 then 0xA0 ≤ c && c ≤ 0xBF
  else if b = 0xED then 0x80 ≤ c && c ≤ 0x9F
  else isCont c

/-- Allowed first continuation byte after a four-byte lead `b` (`0xF0`
requires `0x90..0xBF`, `0xF4` requires `0x80..0x8F`, otherwise a plain
continuation byte). -/
def cont1ok4 (b c : Nat) : Bool :=
  if b = 0xF0 then 0x90 ≤ c && c ≤ 0xBF
  else if b = 0xF4 then 0x80 ≤ c && c ≤ 0x8F
  else isCont c

/-- UTF-8 decoding with `errors="ignore"`: on an invalid maximal subpart
the consumed bytes are dropped and decoding resumes at the offending
byte. -/
def utf8GoIgnore : List Nat → List Char
  | [] => []
  | b :: rest =>
    if b < 0x80 then Char.ofNat b :: utf8GoIgnore rest
    else if 0xC2 ≤ b && b ≤ 0xDF then
      match hr : rest with
      | [] => []
      | c1 :: rest1 =>
        if isCont c1 then
          Char.ofNat ((b - 0xC0) * 0x40 + (c1 - 0x80)) :: utf8GoIgnore rest1
        else utf8GoIgnore rest
    else if 0xE0 ≤ b && b ≤ 0xEF then
      match hr : rest with
      | [] => []
      | c1 :: rest1 =>
        if cont1ok3 b c1 then
          match hr1 : rest1 with
          | [] => []
          | c2 :: rest2 =>
            if isCont c2 then
              Char.ofNat ((b - 0xE0) * 0x1000 + (c1 - 0x80) * 0x40 + (c2 - 0x80))
                :: utf8GoIgnore rest2
            else utf8GoIgnore rest1
        else utf8GoIgnore rest
    else if 0xF0 ≤ b && b ≤ 0xF4 then
      match hr : rest with
      | [] => []
      | c1 :: rest1 =>
        if cont1ok4 b c1 then
          match hr1 : rest1 with
          | [] => []
          | c2 :: rest2 =>
            if isCont c2 then
              match hr2 : rest2 with
              | [] => []
              | c3 :: rest3 =>
                if isCont c3 then
                  Char.ofNat ((b - 0xF0) * 0x40000 + (c1 - 0x80) * 0x1000
                      + (c2 - 0x80) * 0x40 + (c3 - 0x80))
                    :: utf8GoIgnore rest3
                else utf8GoIgnore rest2
            else utf8GoIgnore rest1
        else utf8GoIgnore rest
    else utf8GoIgnore rest
termination_by l => sizeOf l
decreasing_by all_goals (subst_vars; simp_wf <;> omega)

/-- `content.decode("utf-8", errors="ignore")`. -/
def utf8DecodeIgnore (content : List Nat) : String :=
  String.mk (utf8GoIgnore content)

/-- Modelled from the spec: UTF-8 decoding where every maximal invalid
subpart is REPLACED by U+FFFD (the `errors="replace"` behaviour the spec
sentence "replacing undecodable bytes rather than failing" describes —
the source uses `errors="ignore"` instead). -/
def utf8GoReplace : List Nat → List Char
  | [] => []
  | b :: rest =>
    if b < 0x80 then Char.ofNat b :: utf8GoReplace rest
    else if 0xC2 ≤ b && b ≤ 0xDF then
      match hr : rest with
      | [] => [Char.ofNat 0xFFFD]
      | c1 :: rest1 =>
        if isCont c1 then
          Char.ofNat ((b - 0xC0) * 0x40 + (c1 - 0x80)) :: utf8GoReplace rest1
        else Char.ofNat 0xFFFD :: utf8GoReplace rest
    else if 0xE0 ≤ b && b ≤ 0xEF then
      match hr : rest with
      | [] => [Char.ofNat 0xFFFD]
      | c1 :: rest1 =>
        if cont1ok3 b c1 then
          match hr1 : rest1 with
          | [] => [Char.ofNat 0xFFFD]
          | c2 :: rest2 =>
            if isCont c2 then
              Char.ofNat ((b - 0xE0) * 0x1000 + (c1 - 0x80) * 0x40 + (c2 - 0x80))
                :: utf8GoReplace rest2
            else Char.ofNat 0xFFFD :: utf8GoReplace rest1
        else Char.ofNat 0xFFFD :: utf8GoReplace rest
    else if 0xF0 ≤ b && b ≤ 0xF4 then
      match hr : rest with
      | [] => [Char.ofNat 0xFFFD]
      | c1 :: rest1 =>
        if cont1ok4 b c1 then
          match hr1 : rest1 with
          | [] => [Char.ofNat 0xFFFD]
          | c2 :: rest2 =>
            if isCont c2 then
              match hr2 : rest2 with
              | [] => [Char.ofNat 0xFFFD]
              | c3 :: rest3 =>
                if isCont c3 then
                  Char.ofNat ((b - 0xF0) * 0x40000 + (c1 - 0x80) * 0x1000
                      + (c2 - 0x80) * 0x40 + (c3 - 0x80))
                    :: utf8GoReplace rest3
                else Char.ofNat 0xFFFD :: utf8GoReplace rest2
            else Char.ofNat 0xFFFD :: utf8GoReplace rest1
        else Char.ofNat 0xFFFD :: utf8GoReplace rest
    else Char.ofNat 0xFFFD :: utf8GoReplace rest
termination_by l => sizeOf l
decreasing_by all_goals (subst_vars; simp_wf <;> omega)

/-- Modelled from the spec: `errors="replace"` decoding. -/
def utf8DecodeReplace (content : List Nat) : String :=
  String.mk (utf8GoReplace content)

/-! ### Document extractor (`extract_text_from_bytes`, `src/app.py:77-114`)

The PDF and DOCX readers are external libraries (`PyPDF2`, `python-docx`);
they are passed in as functions `List Nat → Option String`, where `none`
models the library raising (the `except` branch logs a warning and yields
`""`).  The `mime or ""` normalisation only affects a `None` media type and
is the identity on the strings modelled here. -/

/-- `extract_text_from_bytes(content, mime, name)` (`src/app.py:77-114`):
dispatch on the declared media type; `text/*` and the fallback branch
decode as UTF-8 with `errors="ignore"` (never raising), the PDF and DOCX
branches delegate to the external readers and recover a raised exception
as the empty string. -/
def extract_text_from_bytes
    (pdfExtract docxExtract : List Nat → Option String)
    (content : List Nat) (mime name : String) : String :=
  if pyStartsWith mime "text/" then
    utf8DecodeIgnore content
  else if mime = "application/pdf" then
    (pdfExtract content).getD ""
  else if mime = "application/vnd.openxmlformats-officedocument.wordprocessingml.document" then
    (docxExtract content).getD ""
  else
    utf8DecodeIgnore content

/-! ### Generation gateway (`call_gpt`, `src/app.py:61-74`)

The OpenAI call is the external collaborator; its outcome is an
`Option String` — `some s` is the returned completion text, `none` a
raised exception (network/auth/rate-limit).  `call_gpt` strips a
successful completion and substitutes `""` for a failure, after showing
an `st.error` notice (the notice is `gw.isNone`). -/

/-- `call_gpt` (`src/app.py:61-74`): completion text stripped on success,
`""` on a gateway failure. -/
def call_gpt (gw : Option String) : String :=
  match gw with
  | some s => pyStrip s
  | none => ""

/-- The `st.error` notice `call_gpt` shows exactly when the gateway call
raised (`src/app.py:72-74`). -/
def call_gpt_notice (gw : Option String) : Bool := gw.isNone

/-! ### Symptom mapper (`map_symptoms`, `src/app.py:117-141`)

`json.loads` is Python's standard library parser, passed in as
`loads : String → Option JVal` (`none` models a raised
`JSONDecodeError`, caught by the `except` branch).  The prompt strings
built at lines 118-130 only feed the gateway and are summarised by the
gateway outcome `gw`. -/

/-- `map_symptoms(symptom_text)` (`src/app.py:117-141`): call the gateway,
then `parsed = data` if the completion parses as JSON whose top-level
value is a list (`isinstance(data, list)`), else `parsed = []`; returns
`(parsed, raw)` so the raw completion stays retrievable. -/
def map_symptoms (loads : String → Option JVal) (gw : Option String)
    (symptom_text : String) : List JVal × String :=
  let raw := call_gpt gw
  let parsed : List JVal :=
    match loads raw with
    | some (JVal.arr l) => l
    | _ => []
  (parsed, raw)

/-- The "Analyze symptoms" button handler (`src/app.py:501-508`): when the
stripped symptom note is nonempty, run `map_symptoms`; a nonempty parsed
list replaces `symptom_mappings` wholesale, an empty one leaves the
aggregate untouched and shows the `st.warning` notice (the returned
`Bool`). -/
def map_symptoms_action (loads : String → Option JVal) (gw : Option String)
    (a : AppState) : AppState × Bool :=
  if pyStrip a.symptom_note = "" then (a, false)
  else
    let res := map_symptoms loads gw a.symptom_note
    if res.1.isEmpty then (a, true)
    else ({ a with symptom_mappings := res.1 }, false)

/-! ### Upload handler (`src/app.py:401-423`) -/

/-- One item of `st.file_uploader` output: declared name, declared media
type, raw bytes. -/
structure Upload where
  name : String
  mime : String
  content : List Nat

/-- The deterministic document key `f"{name}:{size}"` (`src/app.py:409`). -/
def doc_id (name : String) (size : Nat) : String :=
  name ++ ":" ++ toString size

/-- The per-upload body of the upload loop (`src/app.py:402-423`): skip the
upload when its id is already among the stored ids, otherwise extract text
and append a fresh document entry (`now` stands for
`datetime.utcnow().isoformat()`). -/
def process_upload (pdfExtract docxExtract : List Nat → Option String)
    (now : String) (docs : List Doc) (up : Upload) : List Doc :=
  let size := up.content.length
  let existing_ids := docs.map Doc.id
  let docId := doc_id up.name size
  if existing_ids.contains docId then docs
  else
    docs ++ [{ id := docId, name := up.name, mime := up.mime, size := size,
               uploaded_at := now ++ "Z",
               text := extract_text_from_bytes pdfExtract docxExtract
                         up.content up.mime up.name,
               notes := "" }]

/-! ### Issues regeneration (`src/app.py:381-386`) -/

/-- Rebuilding `app_data["issues"]` from the line-delimited text area
(`src/app.py:381-386`): per line of `issues_text.splitlines()`, strip it,
drop it when empty, else store `{"label": line, "details": ""}`. -/
def regen_issues (issues_text : String) : List Issue :=
  (pySplitLines issues_text).filterMap (fun line =>
    let stripped := pyStrip line
    if stripped = "" then none
    else some { label := stripped, details := "" })

/-! ### Evidence-summary prompt assembly (`src/app.py:454-461`) -/

/-- The contribution of one document to the evidence blob,
`f"{d.get('name')}:\n{text}"` (`src/app.py:459`). -/
def doc_contrib (d : Doc) : String := d.name ++ ":\n" ++ d.text

/-- `joined_texts` (`src/app.py:455-459`): contributions of the documents
with nonempty extracted text, in stored order. -/
def joined_texts (docs : List Doc) : List String :=
  docs.filterMap (fun d => if d.text = "" then none else some (doc_contrib d))

/-- `big_blob` before truncation: `"\n\n".join(joined_texts)`
(`src/app.py:460`). -/
def big_blob_full (docs : List Doc) : String :=
  pyJoin "\n\n" (joined_texts docs)

/-- `big_blob` after the hard ceiling `big_blob[:12000]`
(`src/app.py:461`). -/
def big_blob (docs : List Doc) : String :=
  pyTake 12000 (big_blob_full docs)

/-- The "Build or refresh evidence summary" button handler
(`src/app.py:454-476`): when the truncated blob is nonempty, the gateway
result (empty on failure) is assigned to `evidence_summary`; the `Bool` is
the `st.error` notice shown inside `call_gpt` on a failure. -/
def evidence_summary_action (gw : Option String) (a : AppState) :
    AppState × Bool :=
  if big_blob a.documents = "" then (a, false)
  else ({ a with evidence_summary := call_gpt gw }, call_gpt_notice gw)

/-! ### Packet exporter (`build_full_claim_packet`, `src/app.py:203-265`)

Python renders a value inside an f-string with `str(...)`; `pyRepr` /
`pyStr` reproduce that for the JSON values stored in
`symptom_mappings` (`str` of a missing `dict.get` is `"None"`, of a
boolean `"True"`/`"False"`).  A mapping entry that is not a dict would
make `m.get` raise in Python; `jGet` totalises that case to `none`, which
no theorem below relies on. -/

/-- `dict.get` on a JSON value (the mapping entries come from
`json.loads`). -/
def jGet (v : JVal) (k : String) : Option JVal :=
  match v with
  | JVal.obj kvs => jLookup kvs k
  | _ => none

/-- Python `repr` of a JSON value (used for values nested in containers). -/
def pyRepr : JVal → String
  | JVal.null => "None"
  | JVal.bool true => "True"
  | JVal.bool false => "False"
  | JVal.num n => toString n
  | JVal.str s => "\x27" ++ s ++ "\x27"
  | JVal.arr l => "[" ++ pyJoin ", " (l.attach.map (fun v => pyRepr v.1)) ++ "]"
  | JVal.obj kvs =>
    "\x7b" ++ pyJoin ", "
      (kvs.attach.map (fun kv =>
        "\x27" ++ kv.1.1 ++ "\x27: " ++ pyRepr kv.1.2)) ++ "\x7d"
decreasing_by
  · have h := List.sizeOf_lt_of_mem v.2
    simp_wf
    omega
  · obtain ⟨⟨k1, v1⟩, hm⟩ := kv
    have h := List.sizeOf_lt_of_mem hm
    simp only [Prod.mk.sizeOf_spec] at h
    simp_wf
    omega

/-- Python `str` of a JSON value (what an f-string interpolates). -/
def pyStr : JVal → String
  | JVal.str s => s
  | v => pyRepr v

/-- f-string interpolation of an optional value (`m.get(k)` is `None` when
the key is absent, printed `"None"`). -/
def pyStrOpt : Option JVal → String
  | some v => pyStr v
  | none => "None"

/-- The profile section body of the packet (`src/app.py:218-229`): one
labeled line per nonempty field. -/
def packetProfileLines (p : Profile) : List String :=
  (if p.full_name = "" then [] else ["Name: " ++ p.full_name])
  ++ (if p.branch = "" then [] else ["Branch: " ++ p.branch])
  ++ (if p.service_dates = "" then [] else ["Service dates: " ++ p.service_dates])
  ++ (if p.deployment_locations = "" then [] else ["Deployments: " ++ p.deployment_locations])
  ++ (if p.mos_duties = "" then [] else ["Duties / MOS: " ++ p.mos_duties])
  ++ (if p.other_notes = "" then [] else ["Additional notes: " ++ p.other_notes])

/-- The claimed-issues section body (`src/app.py:234-237`): issues with a
nonempty label, rendered `f"- {label} {(' - ' + detail) if detail else ''}"`. -/
def packetIssueLines (issues : List Issue) : List String :=
  issues.filterMap (fun i =>
    if i.label = "" then none
    else some ("- " ++ i.label ++ " "
      ++ (if i.details = "" then "" else " - " ++ i.details)))

/-- The mappings section body (`src/app.py:242-247`): one pipe-separated
line per mapping, always including the `selected` flag
(`m.get('selected_for_claim', False)`). -/
def packetMappingLines (ms : List JVal) : List String :=
  ms.map (fun m =>
    "- " ++ pyStrOpt (jGet m "condition")
    ++ " | ICD-10 " ++ pyStrOpt (jGet m "icd10")
    ++ " | system: " ++ pyStrOpt (jGet m "body_system")
    ++ " | rating hint: " ++ pyStrOpt (jGet m "va_rating_hint")
    ++ " | selected: " ++ pyStr ((jGet m "selected_for_claim").getD (JVal.bool false)))

/-- The saved-statements section body (`src/app.py:257-263`): six lines per
saved claim. -/
def packetClaimLines (cs : List Claim) : List String :=
  (cs.map (fun c =>
    ["", "Title: " ++ c.title, "Created: " ++ c.created_at, "", c.body, ""])).flatten

/-- `build_full_claim_packet` as its ordered `lines` list
(`src/app.py:203-264`); `ts` stands for `datetime.utcnow().isoformat()`. -/
def build_full_claim_packet_lines (ts : String) (a : AppState) : List String :=
  ["VA ClaimMate Claim Packet", "Generated: " ++ ts ++ "Z", "",
   "Veteran profile", "----------------"]
  ++ packetProfileLines a.veteran_profile
  ++ ["", "Claimed issues", "-------------"]
  ++ packetIssueLines a.issues
  ++ ["", "Symptom to condition mappings", "-----------------------------"]
  ++ packetMappingLines a.symptom_mappings
  ++ ["", "Evidence summary", "----------------",
      (if a.evidence_summary = "" then "[No summary prepared yet]"
       else a.evidence_summary),
      "", "Saved personal statements", "-------------------------"]
  ++ packetClaimLines a.claims

/-- `build_full_claim_packet` (`src/app.py:203-265`):
`"\n".join(lines)`. -/
def build_full_claim_packet (ts : String) (a : AppState) : String :=
  pyJoin "\n" (build_full_claim_packet_lines ts a)

/-! ### Concrete fixtures used by witnesses and counterexamples -/

/-- The empty aggregate (all defaults), used by concrete instantiations. -/
def emptyAppState : AppState :=
  { veteran_profile := ⟨"", "", "", "", "", ""⟩,
    issues := [], symptom_mappings := [], symptom_note := "",
    claims := [], notes := "", documents := [], evidence_summary := "" }

/-- A 13000-character extracted text. -/
def xs13000 : String := String.mk (List.replicate 13000 'x')

/-- A stored document whose text alone exceeds the 12000-character
ceiling. -/
def c5doc : Doc :=
  { id := "a.txt:13000", name := "a.txt", mime := "text/plain",
    size := 13000, uploaded_at := "T", text := xs13000, notes := "" }

/-- An aggregate with one nonempty-text document, a prior evidence
summary, and a nonempty symptom note. -/
def c6state : AppState :=
  { emptyAppState with
      documents := [{ id := "r.txt:1", name := "r.txt", mime := "text/plain",
                      size := 1, uploaded_at := "T", text := "t",
                      notes := "" }],
      evidence_summary := "old",
      symptom_note := "s" }

/-- An aggregate with a nonempty symptom note and one prior stored
mapping. -/
def c8state : AppState :=
  { emptyAppState with
      symptom_note := "note",
      symptom_mappings := [JVal.obj [("condition", JVal.str "Old")]] }

/-! ### Legacy table-style parser (`src/unnamed/part_000`)

`map_symptoms_to_conditions` (lines 217-231) and the second file's
`map_symptoms` (lines 502-517) contain the identical line-oriented parsing
loop over the model completion; it is embedded here as a single function of
the completion text. -/

namespace Legacy

/-- The parsing loop of `map_symptoms_to_conditions`
(`src/unnamed/part_000:217-231`, identically `map_symptoms` at 502-517):
`content.strip().split("\n")`, then per line skip blanks, skip a header
containing both `"Condition"` and `"ICD"`, skip separator lines whose
stripped characters all lie in `{|, -, space}`, split the rest on `"|"`,
strip each cell, discard empty cells, and keep the line only when exactly
two cells remain. -/
def parse_condition_table (content : String) : List (List String) :=
  let lines := pySplitChar '\n' (pyStrip content)
  lines.foldl
    (fun data line =>
      if pyStrip line = "" then data
      else if containsSub line "Condition" && containsSub line "ICD" then data
      else if (pyStrip line).toList.all (fun c => c = '|' || c = '-' || c = ' ') then data
      else
        let parts := ((pySplitChar '|' line).map pyStrip).filter (fun p => p ≠ "")
        if parts.length = 2 then data ++ [parts] else data)
    []

end Legacy

/-- C4: on the concrete completion
`"Condition | ICD-10 Code\n--- | ---\nTinnitus | H93.1\nbadrow\n"` the
legacy table-style parser yields exactly the single row
`["Tinnitus", "H93.1"]`: the header line is skipped (it contains both
column markers), the `--- | ---` separator is skipped, `badrow` splits
into a single cell and is dropped, and only the `Tinnitus | H93.1` row
survives. -/
theorem legacy_table_parser_concrete_vector :
    Legacy.parse_condition_table
      "Condition | ICD-10 Code\n--- | ---\nTinnitus | H93.1\nbadrow\n"
      = [["Tinnitus", "H93.1"]] := by
  decide

/-! ### C1: `merge_defaults` is idempotent and fills only absent keys -/

theorem fillAbsent_nil (d : List (String × JVal)) : fillAbsent [] d = d := rfl

theorem fillAbsent_cons (kv : String × JVal) (defs d : List (String × JVal)) :
    fillAbsent (kv :: defs) d
      = fillAbsent defs (if hasKey d kv.1 then d else d ++ [kv]) := rfl

theorem hasKey_append (d l : List (String × JVal)) (k : String) :
    hasKey (d ++ l) k = (hasKey d k || hasKey l k) := by
  simp [hasKey, List.any_append]

theorem hasKey_fillAbsent_mono (defs : List (String × JVal)) :
    ∀ d k, hasKey d k = true → hasKey (fillAbsent defs d) k = true := by
  induction defs with
  | nil => intro d k h; simpa [fillAbsent_nil] using h
  | cons kv defs ih =>
    intro d k h
    rw [fillAbsent_cons]
    by_cases hk : hasKey d kv.1
    · simpa [hk] using ih d k h
    · refine ih _ k ?_
      simp only [hk]
      simp [hasKey_append, h]

theorem hasKey_fillAbsent_of_mem (defs : List (String × JVal)) :
    ∀ d kv, kv ∈ defs → hasKey (fillAbsent defs d) kv.1 = true := by
  induction defs with
  | nil => intro d kv h; cases h
  | cons kv' defs ih =>
    intro d kv h
    rw [fillAbsent_cons]
    rcases List.mem_cons.1 h with h | h
    · subst h
      by_cases hk : hasKey d kv.1
      · simp only [hk, if_pos]
        exact hasKey_fillAbsent_mono defs d kv.1 hk
      · simp only [hk]
        refine hasKey_fillAbsent_mono defs _ kv.1 ?_
        simp [hasKey_append, hasKey]
    · exact ih _ kv h

theorem fillAbsent_of_all_present (defs : List (String × JVal)) :
    ∀ d, (∀ kv ∈ defs, hasKey d kv.1 = true) → fillAbsent defs d = d := by
  induction defs with
  | nil => intro d _; rfl
  | cons kv defs ih =>
    intro d h
    rw [fillAbsent_cons]
    have hk : hasKey d kv.1 = true := h kv (List.mem_cons_self kv defs)
    simp only [hk, if_pos]
    exact ih d (fun kv' h' => h kv' (List.mem_cons_of_mem kv h'))

theorem jLookup_append_left (d l : List (String × JVal)) (k : String)
    (h : hasKey d k = true) : jLookup (d ++ l) k = jLookup d k := by
  induction d with
  | nil => simp [hasKey] at h
  | cons p t ih =>
    by_cases hp : p.1 == k
    · simp [jLookup, hp]
    · have ht : hasKey t k = true := by
        simpa [hasKey, hp] using h
      simp [jLookup, hp, ih ht]

theorem jLookup_fillAbsent (defs : List (String × JVal)) :
    ∀ d k, hasKey d k = true → jLookup (fillAbsent defs d) k = jLookup d k := by
  induction defs with
  | nil => intro d k _; rfl
  | cons kv defs ih =>
    intro d k h
    rw [fillAbsent_cons]
    by_cases hk : hasKey d kv.1
    · simpa [hk] using ih d k h
    · rw [if_neg hk]
      have h' : hasKey (d ++ [kv]) k = true := by simp [hasKey_append, h]
      rw [ih _ k h', jLookup_append_left d [kv] k h]

/-- C1: the default back-fill of `load_app_data` is idempotent — applying
`merge_defaults` twice equals applying it once — and it fills only absent
top-level keys: the lookup of every key already present in the aggregate
is unchanged. -/
theorem merge_defaults_idempotent_and_fills_only_absent
    (d : List (String × JVal)) :
    merge_defaults (merge_defaults d) = merge_defaults d
      ∧ ∀ k, hasKey d k = true → jLookup (merge_defaults d) k = jLookup d k := by
  constructor
  · exact fillAbsent_of_all_present defaults (merge_defaults d)
      (fun kv h => hasKey_fillAbsent_of_mem defaults d kv h)
  · intro k h
    exact jLookup_fillAbsent defaults d k h

/-- Witness for C1 at the concrete aggregate `{"notes": "x"}`: the merge is
idempotent there and the present key `"notes"` keeps its value. -/
theorem merge_defaults_idempotent_witness :
    merge_defaults (merge_defaults [("notes", JVal.str "x")])
        = merge_defaults [("notes", JVal.str "x")]
      ∧ jLookup (merge_defaults [("notes", JVal.str "x")]) "notes"
        = jLookup [("notes", JVal.str "x")] "notes" :=
  ⟨(merge_defaults_idempotent_and_fills_only_absent [("notes", JVal.str "x")]).1,
   (merge_defaults_idempotent_and_fills_only_absent [("notes", JVal.str "x")]).2
     "notes" (by decide)⟩

/-! ### C2: upload dedup-by-id -/

theorem contains_append_singleton_self (l : List String) (x : String) :
    (l ++ [x]).contains x = true := by
  simp

/-- C2: two uploads with identical name and size but different content,
processed sequentially against a document sequence not already holding
their id, store exactly one document entry: the first append grows the
sequence by one and the second upload is skipped, leaving the sequence
unchanged. -/
theorem upload_dedup_by_id (pdfE docxE : List Nat → Option String)
    (t1 t2 : String) (docs : List Doc) (u1 u2 : Upload)
    (hname : u1.name = u2.name)
    (hsize : u1.content.length = u2.content.length)
    (hcontent : u1.content ≠ u2.content)
    (hfresh : (docs.map Doc.id).contains (doc_id u1.name u1.content.length)
               = false) :
    process_upload pdfE docxE t2 (process_upload pdfE docxE t1 docs u1) u2
        = process_upload pdfE docxE t1 docs u1
    ∧ (process_upload pdfE docxE t1 docs u1).length = docs.length + 1 := by
  have h1 : process_upload pdfE docxE t1 docs u1
      = docs ++ [{ id := doc_id u1.name u1.content.length, name := u1.name,
                   mime := u1.mime, size := u1.content.length,
                   uploaded_at := t1 ++ "Z",
                   text := extract_text_from_bytes pdfE docxE
                             u1.content u1.mime u1.name,
                   notes := "" }] := by
    simp only [process_upload, hfresh, Bool.false_eq_true, if_false]
  constructor
  · rw [h1]
    have hid : doc_id u2.name u2.content.length
        = doc_id u1.name u1.content.length := by rw [hname, hsize]
    simp only [process_upload, List.map_append, List.map_cons, List.map_nil,
      hid]
    rw [contains_append_singleton_self]
    simp
  · rw [h1]; simp

/-- Witness for C2 at two concrete uploads `a.txt` with bytes `[104, 105]`
and `[104, 106]` (same name, same size 2, different content) against the
empty document sequence. -/
theorem upload_dedup_by_id_witness :
    process_upload (fun _ => none) (fun _ => none) "T2"
        (process_upload (fun _ => none) (fun _ => none) "T1" []
          ⟨"a.txt", "text/plain", [104, 105]⟩)
        ⟨"a.txt", "text/plain", [104, 106]⟩
      = process_upload (fun _ => none) (fun _ => none) "T1" []
          ⟨"a.txt", "text/plain", [104, 105]⟩
    ∧ (process_upload (fun _ => none) (fun _ => none) "T1" []
          ⟨"a.txt", "text/plain", [104, 105]⟩).length
        = ([] : List Doc).length + 1 :=
  upload_dedup_by_id (fun _ => none) (fun _ => none) "T1" "T2" []
    ⟨"a.txt", "text/plain", [104, 105]⟩ ⟨"a.txt", "text/plain", [104, 106]⟩
    rfl rfl (by decide) rfl

/-! ### C3: symptom-mapping completion parsing -/

/-- C3: the symptom-mapping parser returns the parsed array unchanged when
the completion parses as JSON with a top-level array, returns an empty
structured result otherwise, and always hands the caller back the raw
completion text unchanged (it is a total function, so it never raises). -/
theorem map_symptoms_parse_spec (loads : String → Option JVal)
    (gw : Option String) (symptom_text : String) :
    (map_symptoms loads gw symptom_text).2 = call_gpt gw
    ∧ (∀ l, loads (call_gpt gw) = some (JVal.arr l) →
        (map_symptoms loads gw symptom_text).1 = l)
    ∧ ((∀ l, loads (call_gpt gw) ≠ some (JVal.arr l)) →
        (map_symptoms loads gw symptom_text).1 = []) := by
  refine ⟨rfl, ?_, ?_⟩
  · intro l h
    simp [map_symptoms, h]
  · intro h
    cases hl : loads (call_gpt gw) with
    | none => simp [map_symptoms, hl]
    | some v =>
      cases v with
      | arr l => exact absurd hl (h l)
      | null => simp [map_symptoms, hl]
      | bool b => simp [map_symptoms, hl]
      | num n => simp [map_symptoms, hl]
      | str s => simp [map_symptoms, hl]
      | obj kvs => simp [map_symptoms, hl]

/-- Witness for C3 at a concrete parser outcome: a completion parsing to
the one-element array `["x"]` is returned unchanged together with the raw
text. -/
theorem map_symptoms_parse_witness :
    (map_symptoms (fun _ => some (JVal.arr [JVal.str "x"])) (some " raw ")
        "note").1 = [JVal.str "x"]
    ∧ (map_symptoms (fun _ => some (JVal.arr [JVal.str "x"])) (some " raw ")
        "note").2 = call_gpt (some " raw ") :=
  ⟨(map_symptoms_parse_spec (fun _ => some (JVal.arr [JVal.str "x"]))
      (some " raw ") "note").2.1 [JVal.str "x"] rfl,
   (map_symptoms_parse_spec (fun _ => some (JVal.arr [JVal.str "x"]))
      (some " raw ") "note").1⟩

/-! ### C10: issues regeneration -/

/-- C10: regenerating the issues from the line-delimited text strips each
line, silently drops lines that are empty after stripping, and stores an
empty `details` field — every resulting issue has a nonempty label that is
the strip of some input line, and `details = ""`. -/
theorem regen_issues_spec (issues_text : String) (i : Issue)
    (hmem : i ∈ regen_issues issues_text) :
    i.label ≠ "" ∧ i.details = ""
    ∧ ∃ line ∈ pySplitLines issues_text, i.label = pyStrip line := by
  rcases List.mem_filterMap.1 hmem with ⟨line, hline, hf⟩
  by_cases hs : pyStrip line = ""
  · simp [hs] at hf
  · simp only [hs, if_neg, if_false] at hf
    cases hf
    exact ⟨hs, rfl, line, hline, rfl⟩

/-- Witness for C10 at the concrete input `"  asthma  \n\n\tknee\n"`:
the first regenerated issue is `{label := "asthma", details := ""}`, a
member of the regenerated list, and the theorem applies to it. -/
theorem regen_issues_witness :
    (⟨"asthma", ""⟩ : Issue) ∈ regen_issues "  asthma  \n\n\tknee\n"
    ∧ ((⟨"asthma", ""⟩ : Issue).label ≠ ""
       ∧ (⟨"asthma", ""⟩ : Issue).details = ""
       ∧ ∃ line ∈ pySplitLines "  asthma  \n\n\tknee\n",
           (⟨"asthma", ""⟩ : Issue).label = pyStrip line) :=
  ⟨by decide,
   regen_issues_spec "  asthma  \n\n\tknee\n" ⟨"asthma", ""⟩ (by decide)⟩

/-! ### C9: packet export determinism and section headers -/

/-- C9: for a fixed aggregate the packet render is deterministic modulo
the timestamp line — two renders with different timestamps agree on line 0
and on every line from index 2 on, so they are byte-identical except for
the `Generated:` line — and for every aggregate (a zero-claim, empty one
included) the render contains all five section headers, with the fixed
placeholder line when the evidence summary is absent. -/
theorem build_full_claim_packet_spec (a : AppState) (ts1 ts2 : String) :
    ((build_full_claim_packet_lines ts1 a).take 1
        = (build_full_claim_packet_lines ts2 a).take 1
      ∧ (build_full_claim_packet_lines ts1 a).drop 2
        = (build_full_claim_packet_lines ts2 a).drop 2
      ∧ (build_full_claim_packet_lines ts1 a).get? 1
        = some ("Generated: " ++ ts1 ++ "Z"))
    ∧ ("Veteran profile" ∈ build_full_claim_packet_lines ts1 a
      ∧ "Claimed issues" ∈ build_full_claim_packet_lines ts1 a
      ∧ "Symptom to condition mappings" ∈ build_full_claim_packet_lines ts1 a
      ∧ "Evidence summary" ∈ build_full_claim_packet_lines ts1 a
      ∧ "Saved personal statements" ∈ build_full_claim_packet_lines ts1 a)
    ∧ (a.evidence_summary = "" →
        "[No summary prepared yet]" ∈ build_full_claim_packet_lines ts1 a) := by
  refine ⟨⟨rfl, rfl, rfl⟩, ⟨?_, ?_, ?_, ?_, ?_⟩, ?_⟩
  · simp [build_full_claim_packet_lines]
  · simp [build_full_claim_packet_lines]
  · simp [build_full_claim_packet_lines]
  · simp [build_full_claim_packet_lines]
  · simp [build_full_claim_packet_lines]
  · intro h
    simp [build_full_claim_packet_lines, h]

/-- Witness for C9 at the empty aggregate (zero claims, empty profile, no
mappings) and two distinct timestamps: the renders agree away from the
timestamp line and the placeholder line is present. -/
theorem build_full_claim_packet_witness :
    (build_full_claim_packet_lines "T1" emptyAppState).drop 2
      = (build_full_claim_packet_lines "T2" emptyAppState).drop 2
    ∧ "[No summary prepared yet]"
        ∈ build_full_claim_packet_lines "T1" emptyAppState :=
  ⟨(build_full_claim_packet_spec emptyAppState "T1" "T2").1.2.1,
   (build_full_claim_packet_spec emptyAppState "T1" "T2").2.2 rfl⟩

/-! ### C5: evidence-summary blob truncation -/

theorem toList_append (a b : String) : (a ++ b).toList = a.toList ++ b.toList :=
  String.data_append a b

theorem toList_pyTake (n : Nat) (s : String) :
    (pyTake n s).toList = s.toList.take n := rfl

theorem pyTake_length (n : Nat) (s : String) :
    (pyTake n s).length = min n s.length := by
  show (s.toList.take n).length = min n s.length
  rw [List.length_take]
  rfl

theorem pyJoin_cons_exists (sep c : String) (l : List String) :
    ∃ t, (pyJoin sep (c :: l)).toList = c.toList ++ t := by
  cases l with
  | nil => exact ⟨[], by simp [pyJoin]⟩
  | cons s ss =>
    exact ⟨sep.toList ++ (pyJoin sep (s :: ss)).toList,
      by simp [pyJoin, toList_append]⟩

/-- C5 (amended): when the concatenated per-document contributions exceed
12000 characters, the assembled blob has length exactly 12000 and begins
with the first 12000 characters of the first document's contribution —
which is `name ++ ":\n" ++ text`, i.e. the blob starts with the first
document's NAME, not with its raw text. -/
theorem evidence_blob_truncation (d0 : Doc) (rest : List Doc)
    (htext : d0.text ≠ "")
    (hlen : 12000 < (big_blob_full (d0 :: rest)).length) :
    (big_blob (d0 :: rest)).length = 12000
    ∧ ∃ t, (big_blob (d0 :: rest)).toList
        = (doc_contrib d0).toList.take 12000 ++ t := by
  constructor
  · rw [big_blob, pyTake_length]; omega
  · have hj : joined_texts (d0 :: rest)
        = doc_contrib d0 :: joined_texts rest := by
      simp [joined_texts, htext]
    obtain ⟨t, ht⟩ :=
      pyJoin_cons_exists "\n\n" (doc_contrib d0) (joined_texts rest)
    have hblob : (big_blob (d0 :: rest)).toList
        = ((doc_contrib d0).toList ++ t).take 12000 := by
      rw [big_blob, toList_pyTake, big_blob_full, hj, ht]
    rw [hblob, List.take_append_eq_append_take]
    exact ⟨_, rfl⟩

/-- Witness for C5 (amended) at the single oversized document `c5doc`:
its contribution is 13007 characters long, so the blob is cut at exactly
12000 characters and starts with the first 12000 characters of the
contribution. -/
theorem evidence_blob_truncation_witness :
    (big_blob [c5doc]).length = 12000
    ∧ ∃ t, (big_blob [c5doc]).toList
        = (doc_contrib c5doc).toList.take 12000 ++ t := by
  have htext : c5doc.text ≠ "" := by
    intro h
    have hlen := congrArg String.length h
    simp only [c5doc, xs13000] at hlen
    have : (String.mk (List.replicate 13000 'x')).length = 13000 := by
      show (List.replicate 13000 'x').length = 13000
      rw [List.length_replicate]
    rw [this] at hlen
    simp [String.length] at hlen
  have hfull : big_blob_full [c5doc] = doc_contrib c5doc := by
    rw [big_blob_full]
    have hj : joined_texts [c5doc] = [doc_contrib c5doc] := by
      simp [joined_texts, htext]
    rw [hj]
    rfl
  have hclen : (doc_contrib c5doc).length = 13007 := by
    show (doc_contrib c5doc).toList.length = 13007
    rw [doc_contrib, toList_append, toList_append]
    simp only [List.length_append]
    have h1 : (c5doc.name.toList).length = 5 := by decide
    have h2 : ((":\n" : String).toList).length = 2 := by decide
    have h3 : (c5doc.text.toList).length = 13000 := by
      show (xs13000.toList).length = 13000
      show (List.replicate 13000 'x').length = 13000
      rw [List.length_replicate]
    rw [h1, h2, h3]
  exact evidence_blob_truncation c5doc [] htext (by rw [hfull, hclen]; omega)

/-- Counterexample for C5 as stated: with the single document `c5doc`
(name `"a.txt"`, text 13000 `x`s) the concatenated contributions exceed
12000 characters and the blob length is exactly 12000, but the blob does
NOT begin with the first document's text (nor even with its full
contribution `name ++ ":\n" ++ text`): both are longer than the whole
blob. -/
theorem evidence_blob_counterexample :
    12000 < (big_blob_full [c5doc]).length
    ∧ (big_blob [c5doc]).length = 12000
    ∧ ¬ (∃ t, (big_blob [c5doc]).toList = c5doc.text.toList ++ t)
    ∧ ¬ (∃ t, (big_blob [c5doc]).toList = (doc_contrib c5doc).toList ++ t) := by
  have htext : c5doc.text ≠ "" := by
    intro h
    have hlen := congrArg String.length h
    have : c5doc.text.length = 13000 := by
      show (List.replicate 13000 'x').length = 13000
      rw [List.length_replicate]
    rw [this] at hlen
    simp [String.length] at hlen
  have hj : joined_texts [c5doc] = [doc_contrib c5doc] := by
    simp [joined_texts, htext]
  have hfull : big_blob_full [c5doc] = doc_contrib c5doc := by
    rw [big_blob_full, hj]; rfl
  have hclen : (doc_contrib c5doc).length = 13007 := by
    show (doc_contrib c5doc).toList.length = 13007
    rw [doc_contrib, toList_append, toList_append]
    simp only [List.length_append]
    have h1 : (c5doc.name.toList).length = 5 := by decide
    have h2 : ((":\n" : String).toList).length = 2 := by decide
    have h3 : (c5doc.text.toList).length = 13000 := by
      show (List.replicate 13000 'x').length = 13000
      rw [List.length_replicate]
    rw [h1, h2, h3]
  have hfl : 12000 < (big_blob_full [c5doc]).length := by
    rw [hfull, hclen]; omega
  have hblen : (big_blob [c5doc]).length = 12000 := by
    rw [big_blob, pyTake_length]; omega
  have hblenL : (big_blob [c5doc]).toList.length = 12000 := hblen
  refine ⟨hfl, hblen, ?_, ?_⟩
  · rintro ⟨t, ht⟩
    have := congrArg List.length ht
    rw [hblenL] at this
    simp only [List.length_append] at this
    have h3 : (c5doc.text.toList).length = 13000 := by
      show (List.replicate 13000 'x').length = 13000
      rw [List.length_replicate]
    rw [h3] at this
    omega
  · rintro ⟨t, ht⟩
    have := congrArg List.length ht
    rw [hblenL] at this
    simp only [List.length_append] at this
    have h3 : (doc_contrib c5doc).toList.length = 13007 := hclen
    rw [h3] at this
    omega

/-! ### C6: generation-failure handling -/

/-- C6 (amended): on a gateway failure `call_gpt` substitutes the empty
string and shows the error notice; the symptom-mapping action then leaves
the aggregate unchanged (and shows its warning whenever it ran).  The
evidence-summary action, however, does NOT leave the aggregate unchanged:
whenever the blob is nonempty it overwrites `evidence_summary` with the
empty failure result (while surfacing the notice), so the aggregate is
unchanged only if the summary was already empty. -/
theorem generation_failure_handling (loads : String → Option JVal)
    (a : AppState) (hloads : loads "" = none) :
    call_gpt none = ""
    ∧ call_gpt_notice none = true
    ∧ (map_symptoms_action loads none a).1 = a
    ∧ (pyStrip a.symptom_note ≠ "" → (map_symptoms_action loads none a).2 = true)
    ∧ (evidence_summary_action none a).1
        = (if big_blob a.documents = "" then a
           else { a with evidence_summary := "" })
    ∧ (big_blob a.documents ≠ "" → (evidence_summary_action none a).2 = true) := by
  refine ⟨rfl, rfl, ?_, ?_, ?_, ?_⟩
  · by_cases hn : pyStrip a.symptom_note = ""
    · simp [map_symptoms_action, hn]
    · simp [map_symptoms_action, hn, map_symptoms, call_gpt, hloads]
  · intro hn
    simp [map_symptoms_action, hn, map_symptoms, call_gpt, hloads]
  · by_cases hb : big_blob a.documents = ""
    · simp [evidence_summary_action, hb]
    · simp [evidence_summary_action, hb, call_gpt]
  · intro hb
    simp [evidence_summary_action, hb, call_gpt_notice]

/-- Witness for C6 (amended) at the concrete aggregate `c6state` (nonempty
symptom note, one nonempty-text document, prior summary `"old"`) with a
failing gateway: the mapping action leaves the state unchanged and the
evidence action overwrites the summary with `""`. -/
theorem generation_failure_witness :
    (map_symptoms_action (fun _ => none) none c6state).1 = c6state
    ∧ (evidence_summary_action none c6state).1
        = { c6state with evidence_summary := "" } :=
  ⟨(generation_failure_handling (fun _ => none) c6state rfl).2.2.1,
   ((generation_failure_handling (fun _ => none) c6state rfl).2.2.2.2.1).trans
     (if_neg (by decide))⟩

/-- Counterexample for C6 as stated: at `c6state` (whose stored evidence
summary is `"old"` and whose document blob is nonempty) a failing gateway
call leaves the workspace aggregate CHANGED — the evidence-summary action
overwrites the stored summary `"old"` with the empty failure result — so
"leaves the workspace aggregate state unchanged" fails for the
evidence-summary action. -/
theorem generation_failure_counterexample :
    c6state.evidence_summary = "old"
    ∧ (evidence_summary_action none c6state).1.evidence_summary = ""
    ∧ (evidence_summary_action none c6state).1 ≠ c6state := by
  refine ⟨rfl, ?_, ?_⟩
  · decide
  · intro h
    have h2 := congrArg AppState.evidence_summary h
    have h3 : (evidence_summary_action none c6state).1.evidence_summary = "" := by
      decide
    rw [h3] at h2
    exact absurd h2.symm (by decide)

/-! ### C8: wholesale replacement of the mappings -/

/-- C8 (amended): a successful mapping call whose parsed array is nonempty
replaces the stored `symptom_mappings` wholesale — the new value is the
parsed array itself, independent of the previous mappings, so nothing is
merged or appended — but a successfully parsed EMPTY array is treated like
a parse failure: the aggregate is left unchanged (and the warning shown),
not replaced by the empty list. -/
theorem mapping_replacement (loads : String → Option JVal)
    (gw : Option String) (a : AppState) (l : List JVal)
    (hnote : pyStrip a.symptom_note ≠ "")
    (hparse : loads (call_gpt gw) = some (JVal.arr l)) :
    (l ≠ [] → map_symptoms_action loads gw a
        = ({ a with symptom_mappings := l }, false))
    ∧ (l = [] → map_symptoms_action loads gw a = (a, true)) := by
  constructor
  · intro hl
    have hne : l.isEmpty = false := by
      cases l with
      | nil => exact absurd rfl hl
      | cons x xs => rfl
    simp [map_symptoms_action, hnote, map_symptoms, hparse, hne]
  · intro hl
    subst hl
    simp [map_symptoms_action, hnote, map_symptoms, hparse]

/-- Witness for C8 (amended) at `c8state` (prior mapping stored, nonempty
note) and a completion parsing to the one-element array `["m"]`: the
stored mappings become exactly that array. -/
theorem mapping_replacement_witness :
    map_symptoms_action (fun _ => some (JVal.arr [JVal.str "m"])) (some "x")
        c8state
      = ({ c8state with symptom_mappings := [JVal.str "m"] }, false) :=
  (mapping_replacement (fun _ => some (JVal.arr [JVal.str "m"])) (some "x")
      c8state [JVal.str "m"] (by decide) rfl).1
    (by simp)

/-- Counterexample for C8 as stated: at `c8state` a successfully parsed
EMPTY array does not replace the stored sequence — the prior mapping is
still stored (and the warning notice is shown), although the claim says
the stored sequence is entirely replaced by the parsed result even when
that result is empty. -/
theorem mapping_replacement_counterexample :
    (map_symptoms_action (fun _ => some (JVal.arr [])) (some "[]")
        c8state).1.symptom_mappings
      = [JVal.obj [("condition", JVal.str "Old")]]
    ∧ [JVal.obj [("condition", JVal.str "Old")]] ≠ ([] : List JVal)
    ∧ (map_symptoms_action (fun _ => some (JVal.arr [])) (some "[]")
        c8state).2 = true := by
  refine ⟨rfl, by simp, rfl⟩

/-! ### C7: extraction for textual media types -/

theorem utf8GoIgnore_ascii (l : List Nat) (h : ∀ b ∈ l, b < 128) :
    utf8GoIgnore l = l.map Char.ofNat := by
  induction l with
  | nil => simp [utf8GoIgnore]
  | cons b t ih =>
    have hb : b < 128 := h b (List.mem_cons_self b t)
    have ht := ih (fun x hx => h x (List.mem_cons_of_mem b hx))
    rw [utf8GoIgnore.eq_def]
    simp [hb, ht]

/-- C7 (amended): for every byte sequence whose declared media type begins
with `text/`, `extract_text_from_bytes` returns the UTF-8 decoding with
undecodable bytes DROPPED (`errors="ignore"`), never raising (it is a
total function); on all-ASCII bytes the result is exactly the decoded
characters. -/
theorem extract_text_textual_media (pdfE docxE : List Nat → Option String)
    (content : List Nat) (mime name : String)
    (hmime : pyStartsWith mime "text/" = true) :
    extract_text_from_bytes pdfE docxE content mime name
        = utf8DecodeIgnore content
    ∧ ((∀ b ∈ content, b < 128) →
        (extract_text_from_bytes pdfE docxE content mime name).toList
          = content.map Char.ofNat) := by
  constructor
  · simp [extract_text_from_bytes, hmime]
  · intro h
    simp [extract_text_from_bytes, hmime, utf8DecodeIgnore,
      utf8GoIgnore_ascii content h]

/-- Witness for C7 (amended) at the ASCII bytes of `"Hi"` with media type
`text/plain`: extraction returns the ignore-decoding, whose characters are
exactly the two decoded bytes. -/
theorem extract_text_textual_media_witness :
    extract_text_from_bytes (fun _ => none) (fun _ => none) [72, 105]
        "text/plain" "a.txt"
      = utf8DecodeIgnore [72, 105]
    ∧ (extract_text_from_bytes (fun _ => none) (fun _ => none) [72, 105]
        "text/plain" "a.txt").toList = [72, 105].map Char.ofNat :=
  ⟨(extract_text_textual_media (fun _ => none) (fun _ => none) [72, 105]
      "text/plain" "a.txt" (by decide)).1,
   (extract_text_textual_media (fun _ => none) (fun _ => none) [72, 105]
      "text/plain" "a.txt" (by decide)).2 (by decide)⟩

/-- Counterexample for C7 as stated: at the single undecodable byte `0xFF`
with media type `text/plain`, the extractor returns the empty string (the
byte is dropped, `errors="ignore"`), while decoding "with undecodable
bytes replaced" — the spec's wording, `errors="replace"` — would return
the one-character string U+FFFD; the two results differ. -/
theorem extract_text_counterexample :
    extract_text_from_bytes (fun _ => none) (fun _ => none) [0xFF]
        "text/plain" "a.txt" = ""
    ∧ utf8DecodeReplace [0xFF] = String.mk [Char.ofNat 0xFFFD]
    ∧ extract_text_from_bytes (fun _ => none) (fun _ => none) [0xFF]
        "text/plain" "a.txt" ≠ utf8DecodeReplace [0xFF] := by
  have h1 : extract_text_from_bytes (fun _ => none) (fun _ => none) [0xFF]
      "text/plain" "a.txt" = "" := by
    have : pyStartsWith "text/plain" "text/" = true := by decide
    simp [extract_text_from_bytes, this, utf8DecodeIgnore, utf8GoIgnore,
      isCont, cont1ok3, cont1ok4]
  have h2 : utf8DecodeReplace [0xFF] = String.mk [Char.ofNat 0xFFFD] := by
    simp [utf8DecodeReplace, utf8GoReplace, isCont, cont1ok3, cont1ok4]
  refine ⟨h1, h2, ?_⟩
  rw [h1, h2]
  intro h
  have := congrArg String.length h
  simp [String.length] at this
